import Mathlib

/-!
Shallow embedding of `src/fastAPI.py`: a single-endpoint FastAPI service that
relays chat messages to a streaming language model and keeps a per-conversation
memory dictionary.

Modelling choices, each tied to a place in the source:
* `ChatMessage` / `Memory` embed the `ConversationBufferMemory(return_messages=True)`
  chat history: an ordered list of (role, content) turns.
* `ServerState` embeds the mutable state of the module-level
  `StreamingConversationChain` instance: `slots` is the heap of memory objects
  (a slot index stands for Python object identity) and `memories` is the
  `self.memories` dict, embedded as an association list mapping a
  conversation id to the slot index of its memory object.
* `dictGet` embeds Python `dict.get`.
* The remote model (`ChatOpenAI` + `ConversationChain.arun` + the callback
  handler's token iterator) is an oracle: a function from the chat history and
  the new input message to the list of token fragments it streams, in order.
  `Model` is the always-succeeding variant, `ModelE` additionally reports
  whether the remote call raised after streaming its fragments.
* `generate_response` embeds `StreamingConversationChain.generate_response`
  (lines 93-127): get-or-create the memory slot, run the chain on the stored
  history plus the new message, yield each token, and - as
  `ConversationChain.arun` does via `save_context` on success - append the
  human message and the joined AI response to the memory object.
* `chatEndpoint` / `chatEndpointE` embed the `/chat` route handler
  (lines 158-170): it wraps the generator in a `StreamingResponse` with media
  type `text/event-stream`; the body chunks are exactly the yielded tokens.
* `loadSettings` / `startup` embed the pydantic `Settings` class and the
  module-level `streaming_conversation_chain = StreamingConversationChain(
  openai_api_key=get_settings().openai_api_key)` line that runs at import
  time, before the HTTP server can accept any request.
* `get_settings_cached` embeds `@lru_cache` applied to `get_settings`.
-/

/-- A single turn stored in a conversation memory (role + content). -/
inductive Role
  | human
  | ai
deriving DecidableEq, Repr

/-- One message of a conversation history. -/
structure ChatMessage where
  role : Role
  content : String
deriving DecidableEq, Repr

/-- The chat history held by one `ConversationBufferMemory` object. -/
abbrev Memory := List ChatMessage

/-- State of the `StreamingConversationChain` instance: the heap of memory
objects (`slots`, indexed by object identity) and the `self.memories` dict
(`memories`, mapping a conversation id to a slot index). -/
structure ServerState where
  slots : List Memory
  memories : List (String × Nat)
deriving DecidableEq, Repr

/-- The state right after `StreamingConversationChain.__init__`: an empty
`self.memories` dict and no memory objects. -/
def ServerState.init : ServerState := ⟨[], []⟩

/-- Python `dict.get`: first binding of the key, if any. -/
def dictGet : List (String × Nat) → String → Option Nat
  | [], _ => none
  | (k, v) :: rest, key => if k = key then some v else dictGet rest key

/-- Stubbed model backend: from the stored history and the input message to
the token fragments streamed, in production order. -/
abbrev Model := Memory → String → List String

/-- Fallible model backend: the fragments streamed before completion, plus
`some e` when the remote call raised instead of completing. -/
abbrev GenError := String

/-- See `Model`; the second component is the error raised by the remote call,
if any. -/
abbrev ModelE := Memory → String → List String × Option GenError

/-- Lines 111-114: `memory = self.memories.get(conversation_id)`; on `None`,
create a fresh empty `ConversationBufferMemory` and store it in the dict.
Returns the slot index of the memory object together with the updated state. -/
def getOrCreate (st : ServerState) (conversation_id : String) : Nat × ServerState :=
  match dictGet st.memories conversation_id with
  | some idx => (idx, st)
  | none =>
    (st.slots.length,
      { slots := st.slots ++ [[]],
        memories := st.memories ++ [(conversation_id, st.slots.length)] })

/-- The history handed to the generation call for `conversation_id`: the
content of the stored memory object, or the fresh empty memory when no slot
exists yet. -/
def memoryPassed (st : ServerState) (conversation_id : String) : Memory :=
  match dictGet st.memories conversation_id with
  | some idx => st.slots.getD idx []
  | none => []

/-- `StreamingConversationChain.generate_response` (lines 93-127), successful
run: get-or-create the memory slot, stream `model history message`, and append
the completed exchange (human input, joined AI output) to the memory object.
Returns the streamed tokens and the new server state. -/
def generate_response (model : Model) (st : ServerState)
    (conversation_id message : String) : List String × ServerState :=
  let r := getOrCreate st conversation_id
  let idx := r.1
  let st1 := r.2
  let mem := st1.slots.getD idx []
  let tokens := model mem message
  let response := String.join tokens
  (tokens,
    { st1 with
        slots := st1.slots.set idx
          (mem ++ [⟨Role.human, message⟩, ⟨Role.ai, response⟩]) })

/-- `StreamingConversationChain.generate_response` with a fallible remote
call: the tokens streamed before the outcome, and the error (re-raised by
`await run`, line 127) when the call failed.  On failure `save_context` never
runs, so the memory object keeps its pre-call content; the slot created for a
fresh conversation id remains stored. -/
def generate_responseE (model : ModelE) (st : ServerState)
    (conversation_id message : String) :
    (List String × Option GenError) × ServerState :=
  let r := getOrCreate st conversation_id
  let idx := r.1
  let st1 := r.2
  let mem := st1.slots.getD idx []
  let out := model mem message
  match out.2 with
  | some e => ((out.1, some e), st1)
  | none =>
    ((out.1, none),
      { st1 with
          slots := st1.slots.set idx
            (mem ++ [⟨Role.human, message⟩, ⟨Role.ai, String.join out.1⟩]) })

/-- The `ChatRequest` pydantic model (lines 130-136). -/
structure ChatRequest where
  conversation_id : String
  message : String
deriving DecidableEq, Repr

/-- The HTTP response produced by the `/chat` route: status line sent first,
then the body chunks streamed one by one; `streamError` is an error raised
while the body was being streamed (after the status was already sent). -/
structure StreamedResponse where
  status : Nat
  media_type : String
  bodyChunks : List String
  streamError : Option GenError
deriving DecidableEq, Repr

/-- The `/chat` route handler (lines 158-170), successful run: wrap the
generator in a `StreamingResponse(..., media_type="text/event-stream")`.
The body chunks are exactly the yielded tokens, in order, with no framing. -/
def chatEndpoint (model : Model) (st : ServerState) (data : ChatRequest) :
    StreamedResponse × ServerState :=
  let g := generate_response model st data.conversation_id data.message
  ({ status := 200, media_type := "text/event-stream",
     bodyChunks := g.1, streamError := none }, g.2)

/-- The `/chat` route handler with a fallible remote call: the
`StreamingResponse` is returned (status fixed) before any token is awaited,
so a generation error can only surface in `streamError`, mid-body. -/
def chatEndpointE (model : ModelE) (st : ServerState) (data : ChatRequest) :
    StreamedResponse × ServerState :=
  let g := generate_responseE model st data.conversation_id data.message
  ({ status := 200, media_type := "text/event-stream",
     bodyChunks := g.1.1, streamError := g.1.2 }, g.2)

/-- The full concatenated body text of a response. -/
def StreamedResponse.bodyText (r : StreamedResponse) : String :=
  String.join r.bodyChunks

/-- Well-formedness of the server state, established by `__init__` and
preserved by every request: every dict value is a live slot index, and no two
dict entries share a slot (distinct conversations own distinct memory
objects). -/
def WF (st : ServerState) : Prop :=
  (∀ p ∈ st.memories, p.2 < st.slots.length) ∧
  (st.memories.map Prod.snd).Nodup

instance (st : ServerState) : Decidable (WF st) := by
  unfold WF; infer_instance

/-- Observation: the content of the memory stored under `conversation_id`,
or `none` when no slot exists. -/
def memContents (st : ServerState) (conversation_id : String) : Option Memory :=
  (dictGet st.memories conversation_id).map (fun i => st.slots.getD i [])

/-- The pydantic `Settings` class (lines 61-70): one required field. -/
structure Settings where
  openai_api_key : String
deriving DecidableEq, Repr

/-- `Settings()` construction: pydantic `BaseSettings` reads the required
`openai_api_key` field from the process environment first, then from the
`.env` environment file, and raises a validation error when both lack it.
`env` and `envFile` map a variable name to its value, if set. -/
def loadSettings (env envFile : String → Option String) : Except String Settings :=
  match env "OPENAI_API_KEY" with
  | some k => Except.ok ⟨k⟩
  | none =>
    match envFile "OPENAI_API_KEY" with
    | some k => Except.ok ⟨k⟩
    | none => Except.error "validation error: openai_api_key: field required"

/-- The application object built at import time. -/
structure AppInstance where
  openai_api_key : String
  chainState : ServerState
deriving Repr

/-- Module-level startup (lines 151-155): building
`streaming_conversation_chain` evaluates `get_settings().openai_api_key`
during import, before the HTTP server starts; a settings validation error
aborts the process here. -/
def startup (env envFile : String → Option String) : Except String AppInstance :=
  match loadSettings env envFile with
  | Except.error e => Except.error e
  | Except.ok s => Except.ok ⟨s.openai_api_key, ServerState.init⟩

/-- A sequence of `/chat` requests served by a running app. -/
def runRequests (model : Model) (st : ServerState) :
    List ChatRequest → List StreamedResponse × ServerState
  | [] => ([], st)
  | r :: rs =>
    let p := chatEndpoint model st r
    let q := runRequests model p.2 rs
    (p.1 :: q.1, q.2)

/-- The process as a whole: requests are served only when startup succeeded;
a startup failure means no request is ever answered. -/
def serveChat (env envFile : String → Option String) (model : Model)
    (reqs : List ChatRequest) : Option (List StreamedResponse) :=
  match startup env envFile with
  | Except.error _ => none
  | Except.ok a => some (runRequests model a.chainState reqs).1

/-- The request body after the framework parsed the JSON against
`ChatRequest`: either a validation failure with its detail, or the parsed
data. -/
inductive ParsedBody
  | malformed (detail : String)
  | valid (data : ChatRequest)

/-- Modelled from the spec: the web framework translates exceptions that the
application code leaves uncaught into a generic server error response with no
structured error payload. -/
def genericServerError : StreamedResponse :=
  { status := 500, media_type := "text/plain",
    bodyChunks := ["Internal Server Error"], streamError := none }

/-- The framework's dispatch around the `/chat` handler: the application code
contains no try/except, so a malformed body never reaches the handler (the
framework answers with its generic error and the application state is
untouched), and a valid body is handed to the handler unchanged. -/
def handleHttpRequest (model : ModelE) (st : ServerState) (b : ParsedBody) :
    StreamedResponse × ServerState :=
  match b with
  | ParsedBody.malformed _ => (genericServerError, st)
  | ParsedBody.valid data => chatEndpointE model st data

/-- `@lru_cache()`-wrapped `get_settings` (lines 73-78): one call, given the
cache cell.  `load` embeds the body `Settings()`, reading environment and
environment file. -/
def get_settings_cached (load : Unit → Settings) :
    Option Settings → Settings × Option Settings
  | some s => (s, some s)
  | none =>
    let s := load ()
    (s, some s)

/-- A sequence of `get_settings` calls: the values returned, the final cache
cell, and how many times the body (the environment read) actually ran. -/
def runGetSettings (load : Unit → Settings) :
    Nat → Option Settings → List Settings × Option Settings × Nat
  | 0, c => ([], c, 0)
  | n + 1, c =>
    let p := get_settings_cached load c
    let q := runGetSettings load n p.2
    (p.1 :: q.1, q.2.1, (if c.isSome then 0 else 1) + q.2.2)

/-! ### Lemmas about `dictGet` and list indexing -/

theorem dictGet_append_ne (l : List (String × Nat)) (k key : String) (v : Nat)
    (h : k ≠ key) : dictGet (l ++ [(k, v)]) key = dictGet l key := by
  induction l with
  | nil => simp [dictGet, h]
  | cons p rest ih =>
    obtain ⟨k0, v0⟩ := p
    by_cases hk : k0 = key <;> simp [dictGet, hk, ih]

theorem dictGet_append_of_some (l l2 : List (String × Nat)) (key : String)
    (v : Nat) (h : dictGet l key = some v) :
    dictGet (l ++ l2) key = some v := by
  induction l with
  | nil => simp [dictGet] at h
  | cons p rest ih =>
    obtain ⟨k0, v0⟩ := p
    by_cases hk : k0 = key
    · simp [dictGet, hk] at h ⊢; exact h
    · simp [dictGet, hk] at h ⊢; exact ih h

theorem dictGet_append_self_of_none (l : List (String × Nat)) (key : String)
    (v : Nat) (h : dictGet l key = none) :
    dictGet (l ++ [(key, v)]) key = some v := by
  induction l with
  | nil => simp [dictGet]
  | cons p rest ih =>
    obtain ⟨k0, v0⟩ := p
    by_cases hk : k0 = key
    · simp [dictGet, hk] at h
    · simp [dictGet, hk] at h ⊢; exact ih h

theorem dictGet_mem_snd (l : List (String × Nat)) (key : String) (v : Nat)
    (h : dictGet l key = some v) : v ∈ l.map Prod.snd := by
  induction l with
  | nil => simp [dictGet] at h
  | cons p rest ih =>
    obtain ⟨k0, v0⟩ := p
    by_cases hk : k0 = key
    · simp [dictGet, hk] at h; simp [h]
    · simp [dictGet, hk] at h
      simpa using Or.inr (ih h)

theorem dictGet_mem_pair (l : List (String × Nat)) (key : String) (v : Nat)
    (h : dictGet l key = some v) : (key, v) ∈ l := by
  induction l with
  | nil => simp [dictGet] at h
  | cons p rest ih =>
    obtain ⟨k0, v0⟩ := p
    by_cases hk : k0 = key
    · simp [dictGet, hk] at h; simp [hk, h]
    · simp [dictGet, hk] at h
      exact List.mem_cons_of_mem _ (ih h)

theorem dictGet_ne_of_nodup (l : List (String × Nat)) (k1 k2 : String)
    (v1 v2 : Nat) (hnd : (l.map Prod.snd).Nodup) (hk : k1 ≠ k2)
    (h1 : dictGet l k1 = some v1) (h2 : dictGet l k2 = some v2) : v1 ≠ v2 := by
  induction l with
  | nil => simp [dictGet] at h1
  | cons p rest ih =>
    obtain ⟨k0, v0⟩ := p
    simp only [List.map_cons, List.nodup_cons] at hnd
    simp only [dictGet] at h1 h2
    by_cases e1 : k0 = k1
    · have e2 : ¬ k0 = k2 := fun h => hk (e1 ▸ h)
      rw [if_pos e1] at h1
      rw [if_neg e2] at h2
      cases h1
      exact fun h => hnd.1 (h ▸ dictGet_mem_snd rest k2 v2 h2)
    · rw [if_neg e1] at h1
      by_cases e2 : k0 = k2
      · rw [if_pos e2] at h2
        cases h2
        exact fun h => hnd.1 (h ▸ dictGet_mem_snd rest k1 v1 h1)
      · rw [if_neg e2] at h2
        exact ih hnd.2 h1 h2

theorem getD_set_self {α : Type} (l : List α) (i : Nat) (x d : α)
    (h : i < l.length) : (l.set i x).getD i d = x := by
  induction l generalizing i with
  | nil => simp at h
  | cons a rest ih =>
    cases i with
    | zero => simp
    | succ j =>
      simp only [List.set_cons_succ, List.getD_cons_succ]
      exact ih j (by simpa using h)

theorem getD_set_ne {α : Type} (l : List α) (i j : Nat) (x d : α)
    (h : i ≠ j) : (l.set i x).getD j d = l.getD j d := by
  induction l generalizing i j with
  | nil => simp
  | cons a rest ih =>
    cases i with
    | zero =>
      cases j with
      | zero => exact absurd rfl h
      | succ j2 => simp
    | succ i2 =>
      cases j with
      | zero => simp
      | succ j2 =>
        simp only [List.set_cons_succ, List.getD_cons_succ]
        exact ih i2 j2 (fun hh => h (by rw [hh]))

theorem getD_append_left {α : Type} (l l2 : List α) (j : Nat) (d : α)
    (h : j < l.length) : (l ++ l2).getD j d = l.getD j d := by
  induction l generalizing j with
  | nil => simp at h
  | cons a rest ih =>
    cases j with
    | zero => simp
    | succ j2 =>
      simp only [List.cons_append, List.getD_cons_succ]
      exact ih j2 (by simpa using h)

theorem getD_append_length {α : Type} (l : List α) (x d : α) :
    (l ++ [x]).getD l.length d = x := by
  induction l with
  | nil => simp
  | cons a rest ih =>
    simp only [List.cons_append, List.length_cons, List.getD_cons_succ]
    exact ih

/-! ### Characterization of `generate_response` -/

theorem set_append_singleton {α : Type} (l : List α) (y x : α) :
    (l ++ [y]).set l.length x = l ++ [x] := by
  induction l with
  | nil => simp
  | cons a rest ih => simp [ih]

theorem memoryPassed_some (st : ServerState) (cid : String) (idx : Nat)
    (h : dictGet st.memories cid = some idx) :
    memoryPassed st cid = st.slots.getD idx [] := by
  simp [memoryPassed, h]

theorem memoryPassed_none (st : ServerState) (cid : String)
    (h : dictGet st.memories cid = none) : memoryPassed st cid = [] := by
  simp [memoryPassed, h]

theorem memoryPassed_eq_memContents (st : ServerState) (cid : String) :
    memoryPassed st cid = (memContents st cid).getD [] := by
  cases h : dictGet st.memories cid <;> simp [memoryPassed, memContents, h]

theorem slot_getOrCreate (st : ServerState) (cid : String) :
    (getOrCreate st cid).2.slots.getD (getOrCreate st cid).1 [] =
      memoryPassed st cid := by
  unfold getOrCreate memoryPassed
  cases h : dictGet st.memories cid <;> simp [h, getD_append_length]

theorem generate_response_tokens (model : Model) (st : ServerState)
    (cid msg : String) :
    (generate_response model st cid msg).1 = model (memoryPassed st cid) msg := by
  simp only [generate_response]
  rw [slot_getOrCreate]

theorem generate_responseE_tokens (model : ModelE) (st : ServerState)
    (cid msg : String) :
    (generate_responseE model st cid msg).1.1 =
      (model (memoryPassed st cid) msg).1 := by
  simp only [generate_responseE]
  rw [slot_getOrCreate]
  cases h : (model (memoryPassed st cid) msg).2 <;> simp [h]

theorem generate_responseE_err (model : ModelE) (st : ServerState)
    (cid msg : String) :
    (generate_responseE model st cid msg).1.2 =
      (model (memoryPassed st cid) msg).2 := by
  simp only [generate_responseE]
  rw [slot_getOrCreate]
  cases h : (model (memoryPassed st cid) msg).2 <;> simp [h]

theorem generate_response_state_some (model : Model) (st : ServerState)
    (cid msg : String) (idx : Nat) (h : dictGet st.memories cid = some idx) :
    (generate_response model st cid msg).2 =
      { st with
          slots := st.slots.set idx (st.slots.getD idx [] ++
            [⟨Role.human, msg⟩,
             ⟨Role.ai, String.join (model (st.slots.getD idx []) msg)⟩]) } := by
  simp [generate_response, getOrCreate, h]

theorem generate_response_state_none (model : Model) (st : ServerState)
    (cid msg : String) (h : dictGet st.memories cid = none) :
    (generate_response model st cid msg).2 =
      { slots := st.slots ++
          [[⟨Role.human, msg⟩, ⟨Role.ai, String.join (model [] msg)⟩]],
        memories := st.memories ++ [(cid, st.slots.length)] } := by
  simp [generate_response, getOrCreate, h, getD_append_length,
    set_append_singleton]

/-- After a request, the memory stored for its conversation id is the memory
that was passed to the generation call, extended by the completed exchange. -/
theorem memoryPassed_after (model : Model) (st : ServerState) (cid msg : String)
    (hwf : WF st) :
    memoryPassed (generate_response model st cid msg).2 cid =
      memoryPassed st cid ++
        [⟨Role.human, msg⟩,
         ⟨Role.ai, String.join (model (memoryPassed st cid) msg)⟩] := by
  cases h : dictGet st.memories cid with
  | some idx =>
    have hlt : idx < st.slots.length := hwf.1 (cid, idx) (dictGet_mem_pair _ _ _ h)
    rw [generate_response_state_some model st cid msg idx h]
    unfold memoryPassed
    simp only [h]
    exact getD_set_self _ _ _ _ hlt
  | none =>
    rw [generate_response_state_none model st cid msg h]
    unfold memoryPassed
    simp only [h, dictGet_append_self_of_none st.memories cid st.slots.length h]
    simp [getD_append_length]

/-- C1: for a fixed conversation identifier, the memory slot passed to the
generation call on the second request contains the first request's message and
the model's response streamed for it, and the second request's tokens are
generated from exactly that memory: memory accumulates across requests. -/
theorem C1_memory_accumulates (model : Model) (st0 : ServerState)
    (cid msg1 msg2 : String) (hwf : WF st0) :
    ChatMessage.mk Role.human msg1 ∈
      memoryPassed (generate_response model st0 cid msg1).2 cid ∧
    ChatMessage.mk Role.ai
        (String.join (generate_response model st0 cid msg1).1) ∈
      memoryPassed (generate_response model st0 cid msg1).2 cid ∧
    (generate_response model (generate_response model st0 cid msg1).2 cid
        msg2).1 =
      model (memoryPassed (generate_response model st0 cid msg1).2 cid) msg2 := by
  rw [memoryPassed_after model st0 cid msg1 hwf,
    generate_response_tokens model st0 cid msg1]
  refine ⟨by simp, by simp, ?_⟩
  rw [generate_response_tokens model _ cid msg2,
    memoryPassed_after model st0 cid msg1 hwf]

/-- Witness for C1 at a concrete model, state and messages. -/
theorem C1_memory_accumulates_witness :
    ChatMessage.mk Role.human "hello" ∈
      memoryPassed
        (generate_response (fun _ _ => ["ok"]) ServerState.init "c" "hello").2
        "c" ∧
    ChatMessage.mk Role.ai
        (String.join
          (generate_response (fun _ _ => ["ok"]) ServerState.init "c"
              "hello").1) ∈
      memoryPassed
        (generate_response (fun _ _ => ["ok"]) ServerState.init "c" "hello").2
        "c" ∧
    (generate_response (fun _ _ => ["ok"])
        (generate_response (fun _ _ => ["ok"]) ServerState.init "c" "hello").2
        "c" "again").1 =
      (fun _ _ => ["ok"])
        (memoryPassed
          (generate_response (fun _ _ => ["ok"]) ServerState.init "c"
              "hello").2 "c") "again" :=
  C1_memory_accumulates (fun _ _ => ["ok"]) ServerState.init "c" "hello"
    "again" (by decide)

/-- C2: a request for one conversation identifier never modifies the memory
stored under any other identifier, and its result depends only on the memory
stored under its own identifier. -/
theorem C2_memory_isolation (model : Model) (st : ServerState)
    (cid cid2 msg : String) (hwf : WF st) (hne : cid2 ≠ cid) :
    memContents (generate_response model st cid msg).2 cid2 =
      memContents st cid2 ∧
    (∀ st2 : ServerState, memContents st2 cid = memContents st cid →
      (generate_response model st2 cid msg).1 =
        (generate_response model st cid msg).1) := by
  constructor
  · cases h : dictGet st.memories cid with
    | some idx =>
      rw [generate_response_state_some model st cid msg idx h]
      unfold memContents
      cases h2 : dictGet st.memories cid2 with
      | none => simp [h2]
      | some j =>
        have hj : j ≠ idx :=
          dictGet_ne_of_nodup st.memories cid2 cid j idx hwf.2 hne h2 h
        simp [h2, getD_set_ne, Ne.symm hj]
    | none =>
      rw [generate_response_state_none model st cid msg h]
      unfold memContents
      rw [show ({ slots := _, memories := st.memories ++ [(cid, st.slots.length)] } :
            ServerState).memories = st.memories ++ [(cid, st.slots.length)] from rfl,
        dictGet_append_ne st.memories cid cid2 st.slots.length
          (fun hh => hne hh.symm)]
      cases h2 : dictGet st.memories cid2 with
      | none => simp
      | some j =>
        have hj : j < st.slots.length :=
          hwf.1 (cid2, j) (dictGet_mem_pair _ _ _ h2)
        simp only [Option.map_some']
        rw [getD_append_left _ _ _ _ hj]
  · intro st2 hmem
    rw [generate_response_tokens model st2 cid msg,
      generate_response_tokens model st cid msg,
      memoryPassed_eq_memContents, memoryPassed_eq_memContents, hmem]

/-- Witness for C2 at concrete states and identifiers. -/
theorem C2_memory_isolation_witness :
    memContents
        (generate_response (fun _ _ => ["t"]) ServerState.init "a" "m").2 "b" =
      memContents ServerState.init "b" ∧
    (generate_response (fun _ _ => ["t"])
        (ServerState.mk [[]] [("z", 0)]) "a" "m").1 =
      (generate_response (fun _ _ => ["t"]) ServerState.init "a" "m").1 := by
  have h := C2_memory_isolation (fun _ _ => ["t"]) ServerState.init "a" "b" "m"
    (by decide) (by decide)
  exact ⟨h.1, h.2 (ServerState.mk [[]] [("z", 0)]) (by decide)⟩

/-- C3: the `/chat` response body is exactly the model's token fragments, one
chunk per fragment in production order with no framing added, its
concatenation is the joined fragments, the stream is the finite fragment list
(closing with generation), and the declared media type is
`text/event-stream`. -/
theorem C3_raw_token_stream (model : Model) (st : ServerState)
    (data : ChatRequest) :
    (chatEndpoint model st data).1.bodyChunks =
      model (memoryPassed st data.conversation_id) data.message ∧
    (chatEndpoint model st data).1.bodyText =
      String.join (model (memoryPassed st data.conversation_id) data.message) ∧
    (chatEndpoint model st data).1.media_type = "text/event-stream" := by
  refine ⟨?_, ?_, rfl⟩ <;>
    simp [chatEndpoint, StreamedResponse.bodyText, generate_response_tokens]

/-- C4: when no memory slot exists for the request's conversation identifier,
a new empty memory is created and stored under that identifier before
generation (generation then runs on the empty history); when a slot exists,
that same slot is reused (the generation runs on its stored content) and the
mapping keeps its entries unchanged. -/
theorem C4_lazy_slot_creation (model : Model) (st : ServerState)
    (cid msg : String) :
    (dictGet st.memories cid = none →
      (getOrCreate st cid).2.memories = st.memories ++ [(cid, st.slots.length)] ∧
      dictGet (getOrCreate st cid).2.memories cid = some st.slots.length ∧
      (getOrCreate st cid).2.slots.getD st.slots.length [] = [] ∧
      (generate_response model st cid msg).1 = model [] msg) ∧
    (∀ idx, dictGet st.memories cid = some idx →
      getOrCreate st cid = (idx, st) ∧
      (generate_response model st cid msg).1 =
        model (st.slots.getD idx []) msg ∧
      (generate_response model st cid msg).2.memories = st.memories) := by
  constructor
  · intro h
    refine ⟨by simp [getOrCreate, h], ?_, ?_, ?_⟩
    · simp only [getOrCreate, h]
      exact dictGet_append_self_of_none _ _ _ h
    · simp only [getOrCreate, h]
      exact getD_append_length _ _ _
    · rw [generate_response_tokens, memoryPassed_none st cid h]
  · intro idx h
    refine ⟨by simp [getOrCreate, h], ?_, ?_⟩
    · rw [generate_response_tokens, memoryPassed_some st cid idx h]
    · rw [generate_response_state_some model st cid msg idx h]

/-- Witness for C4: the fresh-slot branch at the empty initial state and the
existing-slot branch at a state already holding a slot for the identifier. -/
theorem C4_lazy_slot_creation_witness :
    ((getOrCreate ServerState.init "c").2.memories =
        ServerState.init.memories ++ [("c", ServerState.init.slots.length)] ∧
      dictGet (getOrCreate ServerState.init "c").2.memories "c" =
        some ServerState.init.slots.length ∧
      (getOrCreate ServerState.init "c").2.slots.getD
        ServerState.init.slots.length [] = [] ∧
      (generate_response (fun _ _ => ["t"]) ServerState.init "c" "m").1 =
        (fun _ _ => ["t"]) ([] : Memory) "m") ∧
    (getOrCreate (ServerState.mk [[⟨Role.human, "x"⟩]] [("c", 0)]) "c" =
        (0, ServerState.mk [[⟨Role.human, "x"⟩]] [("c", 0)]) ∧
      (generate_response (fun _ _ => ["t"])
          (ServerState.mk [[⟨Role.human, "x"⟩]] [("c", 0)]) "c" "m").1 =
        (fun _ _ => ["t"])
          ((ServerState.mk [[⟨Role.human, "x"⟩]] [("c", 0)]).slots.getD 0 [])
          "m" ∧
      (generate_response (fun _ _ => ["t"])
          (ServerState.mk [[⟨Role.human, "x"⟩]] [("c", 0)]) "c" "m").2.memories =
        (ServerState.mk [[⟨Role.human, "x"⟩]] [("c", 0)]).memories) :=
  ⟨(C4_lazy_slot_creation (fun _ _ => ["t"]) ServerState.init "c" "m").1
      (by decide),
    ((C4_lazy_slot_creation (fun _ _ => ["t"])
        (ServerState.mk [[⟨Role.human, "x"⟩]] [("c", 0)]) "c" "m").2 0
      (by decide))⟩

/-- C7: a request never removes a mapping entry (the dict after a request is
the dict before it plus, at most, one appended binding), and the slot bound to
an already-mapped conversation identifier is never rebound: the stored memory
object is never replaced. -/
theorem C7_mapping_only_grows (model : Model) (st : ServerState)
    (cid msg : String) :
    (∃ t, (generate_response model st cid msg).2.memories = st.memories ++ t) ∧
    (∀ k v, dictGet st.memories k = some v →
      dictGet (generate_response model st cid msg).2.memories k = some v) := by
  cases h : dictGet st.memories cid with
  | some idx =>
    rw [generate_response_state_some model st cid msg idx h]
    exact ⟨⟨[], by simp⟩, fun k v hv => hv⟩
  | none =>
    rw [generate_response_state_none model st cid msg h]
    exact ⟨⟨[(cid, st.slots.length)], rfl⟩,
      fun k v hv => dictGet_append_of_some _ _ _ _ hv⟩

/-- Witness for C7 at a state holding one entry. -/
theorem C7_mapping_only_grows_witness :
    (∃ t, (generate_response (fun _ _ => ["t"])
        (ServerState.mk [[]] [("a", 0)]) "b" "m").2.memories =
      (ServerState.mk [[]] [("a", 0)]).memories ++ t) ∧
    dictGet (generate_response (fun _ _ => ["t"])
        (ServerState.mk [[]] [("a", 0)]) "b" "m").2.memories "a" = some 0 :=
  ⟨(C7_mapping_only_grows (fun _ _ => ["t"])
      (ServerState.mk [[]] [("a", 0)]) "b" "m").1,
    (C7_mapping_only_grows (fun _ _ => ["t"])
      (ServerState.mk [[]] [("a", 0)]) "b" "m").2 "a" 0 (by decide)⟩

/-- C5: when the provider API key is absent from both the environment and the
environment file, module import fails with a settings validation error and no
request is ever served. -/
theorem C5_missing_key_aborts_startup (env envFile : String → Option String)
    (h1 : env "OPENAI_API_KEY" = none)
    (h2 : envFile "OPENAI_API_KEY" = none) :
    (∃ e, startup env envFile = Except.error e) ∧
    ∀ (model : Model) (reqs : List ChatRequest),
      serveChat env envFile model reqs = none := by
  have hload : loadSettings env envFile =
      Except.error "validation error: openai_api_key: field required" := by
    simp [loadSettings, h1, h2]
  refine ⟨⟨"validation error: openai_api_key: field required", ?_⟩,
    fun model reqs => ?_⟩ <;> simp [startup, serveChat, hload]

/-- Witness for C5 with an empty environment and environment file. -/
theorem C5_missing_key_aborts_startup_witness :
    (∃ e, startup (fun _ => none) (fun _ => none) = Except.error e) ∧
    ∀ (model : Model) (reqs : List ChatRequest),
      serveChat (fun _ => none) (fun _ => none) model reqs = none :=
  C5_missing_key_aborts_startup (fun _ => none) (fun _ => none) rfl rfl

/-- C6: no application code catches errors.  A remote-call failure reaches the
framework boundary verbatim (the streamed error is exactly the model's error
and the body holds only the tokens streamed before it - no retry, no
structured error payload built from it); a malformed request never reaches the
handler and is answered by the framework's generic server error, identically
for every failure detail and leaving the application state untouched; a
missing configuration value errors at startup. -/
theorem C6_errors_uncaught (model : ModelE) (st : ServerState)
    (data : ChatRequest) (toks : List String) (e : GenError)
    (hfail : model (memoryPassed st data.conversation_id) data.message =
      (toks, some e)) :
    (chatEndpointE model st data).1.streamError = some e ∧
    (chatEndpointE model st data).1.bodyChunks = toks ∧
    (∀ (d : String) (model2 : ModelE) (st2 : ServerState),
      handleHttpRequest model2 st2 (ParsedBody.malformed d) =
        (genericServerError, st2)) ∧
    (∀ env envFile : String → Option String,
      env "OPENAI_API_KEY" = none → envFile "OPENAI_API_KEY" = none →
      ∃ msg, startup env envFile = Except.error msg) := by
  refine ⟨?_, ?_, fun d model2 st2 => rfl, fun env envFile h1 h2 => ?_⟩
  · show (generate_responseE model st data.conversation_id data.message).1.2 =
      some e
    rw [generate_responseE_err, hfail]
  · show (generate_responseE model st data.conversation_id data.message).1.1 =
      toks
    rw [generate_responseE_tokens, hfail]
  · exact ⟨"validation error: openai_api_key: field required",
      by simp [startup, loadSettings, h1, h2]⟩

/-- Witness for C6 with a model that streams one token and then fails. -/
theorem C6_errors_uncaught_witness :
    (chatEndpointE (fun _ _ => (["partial"], some "boom")) ServerState.init
        ⟨"c", "hi"⟩).1.streamError = some "boom" ∧
    (chatEndpointE (fun _ _ => (["partial"], some "boom")) ServerState.init
        ⟨"c", "hi"⟩).1.bodyChunks = ["partial"] ∧
    (∀ (d : String) (model2 : ModelE) (st2 : ServerState),
      handleHttpRequest model2 st2 (ParsedBody.malformed d) =
        (genericServerError, st2)) ∧
    (∀ env envFile : String → Option String,
      env "OPENAI_API_KEY" = none → envFile "OPENAI_API_KEY" = none →
      ∃ msg, startup env envFile = Except.error msg) :=
  C6_errors_uncaught (fun _ _ => (["partial"], some "boom")) ServerState.init
    ⟨"c", "hi"⟩ ["partial"] "boom" rfl

/-- C9: the handler fixes the HTTP status (200) before the generation outcome
is known - the status is the same for every model backend, failing or not -
and a generation failure surfaces only as an error during body streaming,
exactly the model's error. -/
theorem C9_status_fixed_before_generation (model : ModelE) (st : ServerState)
    (data : ChatRequest) :
    (chatEndpointE model st data).1.status = 200 ∧
    (∀ model2 : ModelE, (chatEndpointE model2 st data).1.status =
      (chatEndpointE model st data).1.status) ∧
    (chatEndpointE model st data).1.streamError =
      (model (memoryPassed st data.conversation_id) data.message).2 := by
  refine ⟨rfl, fun model2 => rfl, ?_⟩
  show (generate_responseE model st data.conversation_id data.message).1.2 = _
  rw [generate_responseE_err]

/-- Folding append over strings adds up the lengths. -/
theorem length_foldl_append (l : List String) (s : String) :
    (l.foldl (fun r t => r ++ t) s).length =
      s.length + (l.map String.length).sum := by
  induction l generalizing s with
  | nil => simp
  | cons a rest ih =>
    simp [ih, String.length_append, Nat.add_assoc]

/-- The length of a joined string is the sum of the fragment lengths. -/
theorem join_length (l : List String) :
    (String.join l).length = (l.map String.length).sum := by
  have h := length_foldl_append l ""
  simpa [String.join] using h

/-- A non-empty string has positive length. -/
theorem strLengthPos (t : String) (h : t ≠ "") : 0 < t.length := by
  cases t with
  | mk data =>
    cases data with
    | nil => exact absurd rfl h
    | cons c cs => simp [String.length]

/-- Counterexample to C8 as stated: with a non-empty input message and a
stubbed backend producing exactly one token fragment (the empty fragment),
the concatenated response content is empty. -/
theorem C8_counterexample :
    ("hi" : String) ≠ "" ∧
    (chatEndpoint (fun _ _ => [""]) ServerState.init ⟨"c", "hi"⟩).1.bodyChunks.length = 1 ∧
    (chatEndpoint (fun _ _ => [""]) ServerState.init ⟨"c", "hi"⟩).1.bodyText = "" := by
  refine ⟨by decide, rfl, by decide⟩

/-- C8 amended: for a non-empty input message, the response stream's
concatenated content is non-empty provided the stubbed model backend produces
at least one non-empty token fragment. -/
theorem C8_nonempty_content (model : Model) (st : ServerState)
    (data : ChatRequest) (t : String) (_hmsg : data.message ≠ "")
    (ht : t ∈ model (memoryPassed st data.conversation_id) data.message)
    (hne : t ≠ "") :
    (chatEndpoint model st data).1.bodyText ≠ "" := by
  intro hcontr
  have hbody : (chatEndpoint model st data).1.bodyText =
      String.join (model (memoryPassed st data.conversation_id) data.message) := by
    simp [chatEndpoint, StreamedResponse.bodyText, generate_response_tokens]
  rw [hbody] at hcontr
  have hzero := congrArg String.length hcontr
  rw [join_length] at hzero
  have hle : t.length ≤
      ((model (memoryPassed st data.conversation_id) data.message).map
        String.length).sum :=
    List.single_le_sum (fun x _ => Nat.zero_le x) _
      (List.mem_map_of_mem String.length ht)
  have := strLengthPos t hne
  simp only [String.length_empty] at hzero
  omega

/-- Witness for the amended C8 at a concrete model and request. -/
theorem C8_nonempty_content_witness :
    (chatEndpoint (fun _ _ => ["ok"]) ServerState.init ⟨"c", "hi"⟩).1.bodyText ≠ "" :=
  C8_nonempty_content (fun _ _ => ["ok"]) ServerState.init ⟨"c", "hi"⟩ "ok"
    (by decide) (by decide) (by decide)

/-- From a populated cache cell, every `get_settings` call returns the cached
object and never runs the body. -/
theorem runGetSettings_cached (load : Unit → Settings) (s : Settings) :
    ∀ m : Nat, runGetSettings load m (some s) =
      (List.replicate m s, some s, 0) := by
  intro m
  induction m with
  | zero => rfl
  | succ k ih =>
    simp [runGetSettings, get_settings_cached, ih, List.replicate_succ]

/-- C10: `get_settings` is idempotent.  Over any number `n ≥ 1` of calls in a
process, every call returns the very same cached `Settings` object as the
first, the body (the environment read) runs exactly once, and the cache ends
holding that object. -/
theorem C10_get_settings_idempotent (load : Unit → Settings) (n : Nat)
    (hn : 0 < n) :
    (runGetSettings load n none).1 = List.replicate n (load ()) ∧
    (runGetSettings load n none).2.2 = 1 ∧
    (runGetSettings load n none).2.1 = some (load ()) := by
  cases n with
  | zero => exact absurd hn (by simp)
  | succ m =>
    simp [runGetSettings, get_settings_cached, runGetSettings_cached,
      List.replicate_succ]

/-- Witness for C10: three calls with a concrete loader. -/
theorem C10_get_settings_idempotent_witness :
    (runGetSettings (fun _ => ⟨"sk-test"⟩) 3 none).1 =
      List.replicate 3 (Settings.mk "sk-test") ∧
    (runGetSettings (fun _ => ⟨"sk-test"⟩) 3 none).2.2 = 1 ∧
    (runGetSettings (fun _ => ⟨"sk-test"⟩) 3 none).2.1 =
      some (Settings.mk "sk-test") :=
  C10_get_settings_idempotent (fun _ => ⟨"sk-test"⟩) 3 (by decide)
